import Mathlib

/-!
Verification of the docker-service-update library (src/index.js) against its
natural-language specification.  The JavaScript code is shallowly embedded:
the Spec Merger (adjustSpec, lines 92-139) becomes a pure function over a
typed service-spec record plus a small model of JavaScript values, and the
Convergence Monitor (waitUntilRunning, lines 157-212) becomes a function
driven by an explicit list of task-list snapshots, one snapshot per poll.
-/

namespace DockerServiceUpdate

/-- Minimal model of the JavaScript values that can appear in an options
object handed to adjustSpec: strings, numbers, booleans, arrays and plain
objects (an object is a key-ordered association list). -/
inductive JSValue : Type
  | str (s : String)
  | num (n : Int)
  | bool (b : Bool)
  | list (xs : List JSValue)
  | obj (fields : List (String × JSValue))

/-- JavaScript truthiness of a value, as used by the if-guards in
adjustSpec (src/index.js lines 106, 110, 119, 127, 133): empty strings and
zero are falsy, every array and object is truthy. -/
def truthy : JSValue → Bool
  | JSValue.str s => !(s == "")
  | JSValue.num n => !(n == 0)
  | JSValue.bool b => b
  | JSValue.list _ => true
  | JSValue.obj _ => true

/-- Field access on an options object; a missing key is JavaScript
undefined, modelled as none. -/
def getField (options : List (String × JSValue)) (k : String) : Option JSValue :=
  (options.find? fun p => p.1 == k).map Prod.snd

/-- Truthiness of a possibly-undefined field (undefined is falsy). -/
def truthyOpt : Option JSValue → Bool
  | some v => truthy v
  | none => false

/-- The fields of a possibly-undefined object value; anything that is not
an object contributes no fields (matches the aug call sites where the
overlay argument may be undefined). -/
def objFields : Option JSValue → List (String × JSValue)
  | some (JSValue.obj fs) => fs
  | _ => []

/-- Coercion of a JavaScript value to a string as used when serializing
KEY=VALUE environment entries.  Only string values occur at the claimed
call sites; the remaining cases are placeholders. -/
def jsToString : JSValue → String
  | JSValue.str s => s
  | JSValue.num n => toString n
  | JSValue.bool b => if b then "true" else "false"
  | JSValue.list _ => ""
  | JSValue.obj _ => "[object Object]"

/-- Model of the container spec inside a service spec: the fields read and
written by adjustSpec (src/index.js lines 107, 111, 116, 120, 124, 136). -/
structure ContainerSpec : Type where
  Image : String
  Env : Option (List String)
  Labels : Option (List (String × JSValue))

/-- Model of the TaskTemplate object of a service spec. -/
structure TaskTemplate : Type where
  ContainerSpec : ContainerSpec
  ForceUpdate : Option Nat

/-- Model of the Mode.Replicated object (src/index.js lines 128-130). -/
structure ReplicatedMode : Type where
  Replicas : Option Int := none

/-- Model of the Mode object of a service spec. -/
structure ServiceMode : Type where
  Replicated : Option ReplicatedMode := none

/-- Model of a Docker service spec restricted to the fields the repository
reads or writes. -/
structure ServiceSpec : Type where
  Name : String
  TaskTemplate : TaskTemplate
  Mode : Option ServiceMode
  Labels : Option (List (String × JSValue)) := none
  version : Option Nat := none

/-- Characters of a string before the first occurrence of the given
character (the whole string when the character is absent). -/
def takeUntilChar (c : Char) : List Char → List Char
  | [] => []
  | x :: xs => if x = c then [] else x :: takeUntilChar c xs

/-- Embedding of the JavaScript expression image.split at the '@' sign
taking the first piece (src/index.js line 136): everything before the
first '@', or the whole string when there is none. -/
def stripDigest (s : String) : String :=
  String.mk (takeUntilChar '@' s.data)

/-- Split a character list at the first '=' sign into key and value. -/
def splitAtEqChar : List Char → List Char × List Char
  | [] => ([], [])
  | x :: xs =>
    if x = '=' then ([], xs)
    else
      let p := splitAtEqChar xs
      (x :: p.1, p.2)

/-- Modelled from the spec: utils.arrToObj of lib/utils (not under src/),
which the spec describes as converting the current environment list of
KEY=VALUE strings to a key-to-value mapping. -/
def arrToObj (l : List String) : List (String × JSValue) :=
  l.map fun s =>
    let p := splitAtEqChar s.data
    (String.mk p.1, JSValue.str (String.mk p.2))

/-- Modelled from the spec: utils.objToArr of lib/utils (not under src/),
which the spec describes as serializing a key-to-value mapping back to a
list of KEY=VALUE strings, deterministically (stable by key position). -/
def objToArr (m : List (String × JSValue)) : List String :=
  m.map fun p => p.1 ++ "=" ++ jsToString p.2

/-- Modelled from the spec: the third-party aug merge, as the spec
describes it at these call sites: overlay wins on key collision; existing
keys keep their position and new keys are appended, matching JavaScript
object key order. -/
def augMerge (base overlay : List (String × JSValue)) : List (String × JSValue) :=
  (base.map fun p =>
    match overlay.find? fun q => q.1 == p.1 with
    | some q => (p.1, q.2)
    | none => p)
  ++ overlay.filter fun q => (base.find? fun p => p.1 == q.1).isNone

/-- Embedding of the delete loops of adjustSpec (src/index.js lines 114 and
122): remove from the mapping every key listed in the removal array. -/
def removeKeys (m : List (String × JSValue)) (ks : List JSValue) : List (String × JSValue) :=
  m.filter fun p => !(ks.any fun k => jsToString k == p.1)

/-- The option keys declared in the joi schema of src/index.js lines
93-101. -/
def knownKeys : List String :=
  ["image", "env", "envRemove", "labels", "labelRemove", "replicas", "force"]

/-- Shape check of one options field against the joi schema of
src/index.js lines 93-101: image must be a string, env and labels objects,
envRemove and labelRemove arrays, replicas a number, force a boolean; a
key outside the schema matches no shape. -/
def fieldShapeOk : String → JSValue → Bool
  | "image", JSValue.str _ => true
  | "env", JSValue.obj _ => true
  | "envRemove", JSValue.list _ => true
  | "labels", JSValue.obj _ => true
  | "labelRemove", JSValue.list _ => true
  | "replicas", JSValue.num _ => true
  | "force", JSValue.bool _ => true
  | _, _ => false

/-- Modelled from the spec: the joi validate call of src/index.js lines
93-104.  The joi library itself is a third-party dependency absent from
the workspace, so this follows the spec's own contract for the Spec
Merger: a known field of the wrong shape fails validation with the first
error message, and unknown fields are ignored, not rejected.  joi's real
semantics on the points the spec does not describe (unknown-key handling
under its defaults, convert coercions, the empty-string rule) are not
available here and are not modelled. -/
def validateOptions : List (String × JSValue) → Option String
  | [] => none
  | (k, v) :: rest =>
    if knownKeys.contains k then
      if fieldShapeOk k v then validateOptions rest
      else some (k ++ " does not match the declared schema type")
    else validateOptions rest

/-- Embedding of adjustSpec (src/index.js lines 92-139): validate the
options against the joi schema, throwing (here: returning error) on a
validation failure, then apply the image, env, labels, replicas and force
adjustments in source order, each guarded by JavaScript truthiness of the
corresponding option. -/
def adjustSpec (spec : ServiceSpec) (options : List (String × JSValue)) :
    Except String ServiceSpec :=
  match validateOptions options with
  | some err => Except.error err
  | none =>
    let spec1 :=
      match getField options "image" with
      | some (JSValue.str s) =>
        if truthy (JSValue.str s) then
          { spec with TaskTemplate := { spec.TaskTemplate with
              ContainerSpec := { spec.TaskTemplate.ContainerSpec with Image := s } } }
        else spec
      | _ => spec
    let spec2 :=
      if truthyOpt (getField options "env") || truthyOpt (getField options "envRemove") then
        let env := arrToObj (spec1.TaskTemplate.ContainerSpec.Env.getD [])
        let merged := augMerge env (objFields (getField options "env"))
        let merged2 :=
          match getField options "envRemove" with
          | some (JSValue.list ks) => removeKeys merged ks
          | _ => merged
        { spec1 with TaskTemplate := { spec1.TaskTemplate with
            ContainerSpec := { spec1.TaskTemplate.ContainerSpec with
              Env := some (objToArr merged2) } } }
      else spec1
    let spec3 :=
      if truthyOpt (getField options "labels") || truthyOpt (getField options "labelRemove") then
        let merged := augMerge (spec2.TaskTemplate.ContainerSpec.Labels.getD [])
          (objFields (getField options "labels"))
        let merged2 :=
          match getField options "labelRemove" with
          | some (JSValue.list ks) => removeKeys merged ks
          | _ => merged
        { spec2 with TaskTemplate := { spec2.TaskTemplate with
            ContainerSpec := { spec2.TaskTemplate.ContainerSpec with
              Labels := some merged2 } } }
      else spec2
    let spec4 :=
      match getField options "replicas" with
      | some (JSValue.num n) =>
        if truthy (JSValue.num n) then
          let mode := spec3.Mode.getD {}
          let repl := mode.Replicated.getD {}
          { spec3 with Mode := some { mode with Replicated := some { repl with Replicas := some n } } }
        else spec3
      | _ => spec3
    let spec5 :=
      match getField options "force" with
      | some (JSValue.bool b) =>
        if truthy (JSValue.bool b) then
          let updateCount := spec4.TaskTemplate.ForceUpdate.getD 0
          { spec4 with TaskTemplate := { spec4.TaskTemplate with
              ContainerSpec := { spec4.TaskTemplate.ContainerSpec with
                Image := stripDigest spec4.TaskTemplate.ContainerSpec.Image },
              ForceUpdate := some (updateCount + 1) } }
        else spec4
      | _ => spec4
    Except.ok spec5

/-- Embedding of the options object built by scale (src/index.js lines
141-143): scale delegates to adjust with a one-field options object
carrying the requested replica count. -/
def scaleOptions (replicas : Int) : List (String × JSValue) :=
  [("replicas", JSValue.num replicas)]

/-- A one-field options object requesting a forced redeploy, as claim C8
applies it. -/
def forceOptions : List (String × JSValue) :=
  [("force", JSValue.bool true)]

/-- A concrete service spec used as a test fixture. -/
def testSpec : ServiceSpec :=
  { Name := "svc-x"
    TaskTemplate :=
      { ContainerSpec :=
          { Image := "app:1@sha256:abcd"
            Env := some ["PORT=8080"]
            Labels := none }
        ForceUpdate := some 0 }
    Mode := some { Replicated := some { Replicas := some 3 } } }

/-- Task lifecycle states reported by the orchestrator (the eleven Docker
task states; the code compares against the five strings pending, new,
failed, rejected and running). -/
inductive TaskState : Type
  | new
  | pending
  | assigned
  | preparing
  | starting
  | running
  | complete
  | failed
  | shutdown
  | rejected
  | orphaned
deriving DecidableEq, Repr

/-- An observed task snapshot: identifier, lifecycle state, and the
optional error detail of Status.Err. -/
structure Task : Type where
  id : String
  state : TaskState
  err : Option String
deriving DecidableEq, Repr

/-- The failure report thrown at src/index.js line 175: task identifier,
its state, and the error detail. -/
structure TaskFailure : Type where
  id : String
  state : TaskState
  err : Option String
deriving DecidableEq, Repr

/-- The debug observations emitted through the listener during
monitoring, with payloads reduced to the fields claims talk about. -/
inductive DebugEvent : Type
  | startMonitoring
  | checkTask (id : String) (state : TaskState)
  | taskRunningFirst
  | noTasksFound
  | doneMonitoring
deriving DecidableEq, Repr

/-- Terminal outcome of one waitUntilRunning invocation.  converged is the
benign return at line 197, noNewTasks the benign early return at line 188,
taskFailure the throw at line 175, timedOut the throw at line 192;
outOfPolls is the model artifact for a run that would keep polling past
the supplied snapshots. -/
inductive MonitorResult : Type
  | converged
  | noNewTasks
  | taskFailure (f : TaskFailure)
  | timedOut
  | outOfPolls
deriving DecidableEq, Repr

/-- Outcome of scanning one fetched task list (the forEach of src/index.js
lines 169-184): either the thrown failure together with the events emitted
up to the throw, or the foundTasks flag, the updated taskRunning flag and
the emitted events. -/
inductive ScanOutcome : Type
  | failure (f : TaskFailure) (evs : List DebugEvent)
  | ok (found : Bool) (tr : Bool) (evs : List DebugEvent)
deriving DecidableEq, Repr

/-- The two derived polling bounds of the constructor (src/index.js lines
13-17): maxWaitTimes is the maximum allowed poll counter before a timeout,
monitorCount the extra-cycles threshold of extended monitoring. -/
structure MonitorConfig : Type where
  maxWaitTimes : Nat
  monitorCount : Nat
deriving DecidableEq, Repr

/-- The bounds derived from the default constructor options (waitDelay
2000, monitorFor 3000, waitTime 60000): maxWaitTimes 30, monitorCount 1. -/
def defaultConfig : MonitorConfig :=
  { maxWaitTimes := 60000 / 2000, monitorCount := 3000 / 2000 }

/-- Embedding of the forEach over fetched tasks (src/index.js lines
169-184): tasks whose identifier is in the existing baseline are skipped;
each other task is logged; a failed or rejected task throws immediately
with its identifier, state and error detail; a running task sets the
taskRunning flag (logging the first time it flips). -/
def scanTasks (existing : List String) : Bool → Bool → List DebugEvent → List Task → ScanOutcome
  | found, tr, evs, [] => ScanOutcome.ok found tr evs
  | found, tr, evs, t :: rest =>
    if existing.contains t.id then
      scanTasks existing found tr evs rest
    else
      let evs1 := evs ++ [DebugEvent.checkTask t.id t.state]
      if t.state = TaskState.failed ∨ t.state = TaskState.rejected then
        ScanOutcome.failure ⟨t.id, t.state, t.err⟩ evs1
      else if t.state = TaskState.running then
        let evs2 := if tr then evs1 else evs1 ++ [DebugEvent.taskRunningFirst]
        scanTasks existing true true evs2 rest
      else
        scanTasks existing true tr evs1 rest

/-- Embedding of the recursive checkTasks closure (src/index.js lines
166-209), driven by the list of task-list snapshots the successive
getTasks calls would return: scan the next snapshot; on an empty new-task
set log and return; otherwise advance the poll counter, time out when it
exceeds the maximum with no task running yet, return converged when a task
runs and extended monitoring is off, and in extended monitoring advance
the post-convergence counter, clearing the monitoring flag once it reaches
the threshold, before recursing on the remaining snapshots. -/
def checkTasks (cfg : MonitorConfig) (existing : List String) :
    Bool → Nat → Bool → Nat → List (List Task) → MonitorResult × List DebugEvent
  | _, _, _, _, [] => (MonitorResult.outOfPolls, [])
  | tr, times, monitoring, mc, tasks :: rest =>
    match scanTasks existing false tr [] tasks with
    | ScanOutcome.failure f evs => (MonitorResult.taskFailure f, evs)
    | ScanOutcome.ok found tr2 evs =>
      if !found then
        (MonitorResult.noNewTasks, evs ++ [DebugEvent.noTasksFound])
      else
        let times2 := times + 1
        if decide (times2 > cfg.maxWaitTimes) && !tr2 then
          (MonitorResult.timedOut, evs)
        else if tr2 && !monitoring then
          (MonitorResult.converged, evs ++ [DebugEvent.doneMonitoring])
        else
          let st :=
            if tr2 && monitoring then
              let mc2 := mc + 1
              (if decide (cfg.monitorCount ≤ mc2) then false else monitoring, mc2)
            else (monitoring, mc)
          let next := checkTasks cfg existing tr2 times2 st.1 st.2 rest
          (next.1, evs ++ next.2)

/-- The second argument of waitUntilRunning as its callers use it: create
and update pass a boolean, adjust passes the pre-fetched task-identifier
array (src/index.js lines 51, 71, 88). -/
inductive MonitorArg : Type
  | flag (b : Bool)
  | taskIds (ids : List String)
deriving DecidableEq, Repr

/-- JavaScript truthiness of the monitor argument: booleans are
themselves, every array (empty or not) is truthy. -/
def monitorTruthy : MonitorArg → Bool
  | MonitorArg.flag b => b
  | MonitorArg.taskIds _ => true

/-- Embedding of the baseline computation at src/index.js line 160: the
identifiers of the freshly fetched tasks whose state is not pending and
not new. -/
def computeBaseline (tasks : List Task) : List String :=
  (tasks.filter fun t => !(t.state == TaskState.pending || t.state == TaskState.new)).map Task.id

/-- Embedding of waitUntilRunning (src/index.js lines 157-212):
initialTasks is the snapshot the initial getTasks call returns and polls
the snapshots of the subsequent per-cycle getTasks calls.  The baseline is
always recomputed from the fresh initial fetch; the monitor argument is
consulted only for its truthiness as the extended-monitoring flag. -/
def waitUntilRunning (cfg : MonitorConfig) (arg : MonitorArg) (initialTasks : List Task)
    (polls : List (List Task)) : MonitorResult × List DebugEvent :=
  let existing := computeBaseline initialTasks
  let r := checkTasks cfg existing false 0 (monitorTruthy arg) 0 polls
  (r.1, DebugEvent.startMonitoring :: r.2)

/-- Modelled from the spec: the Convergence Monitor as the spec describes
it, where a caller-supplied explicit task-identifier set is used directly
as the Baseline Set instead of recomputing one from the fresh task fetch.
Used only to contrast with the code's waitUntilRunning. -/
def waitUntilRunningSpec (cfg : MonitorConfig) (arg : MonitorArg) (initialTasks : List Task)
    (polls : List (List Task)) : MonitorResult × List DebugEvent :=
  let existing :=
    match arg with
    | MonitorArg.taskIds ids => ids
    | MonitorArg.flag _ => computeBaseline initialTasks
  let r := checkTasks cfg existing false 0 (monitorTruthy arg) 0 polls
  (r.1, DebugEvent.startMonitoring :: r.2)

/-- Whether a task is outside the baseline and in a failure state: the
condition under which the scan throws. -/
def isNewFailing (existing : List String) (t : Task) : Bool :=
  !existing.contains t.id && (t.state == TaskState.failed || t.state == TaskState.rejected)

/-- A settled running task named t1, and the pending, running and rejected
snapshots of a fresh task named t2, used as concrete monitoring fixtures. -/
def t1run : Task := ⟨"t1", TaskState.running, none⟩

/-- The fresh task t2 while still pending. -/
def t2pend : Task := ⟨"t2", TaskState.pending, none⟩

/-- The fresh task t2 once running. -/
def t2run : Task := ⟨"t2", TaskState.running, none⟩

/-- The fresh task t2 reported rejected with an error detail. -/
def t2rej : Task := ⟨"t2", TaskState.rejected, some "boom"⟩

/-- The test fixture after one forced merge: force counter 1, digest
stripped from the image. -/
def tSpec1 : ServiceSpec :=
  { Name := "svc-x"
    TaskTemplate :=
      { ContainerSpec :=
          { Image := "app:1"
            Env := some ["PORT=8080"]
            Labels := none }
        ForceUpdate := some 1 }
    Mode := some { Replicated := some { Replicas := some 3 } } }

/-- The test fixture after two forced merges: force counter 2, image
unchanged from the first stripping. -/
def tSpec2 : ServiceSpec :=
  { Name := "svc-x"
    TaskTemplate :=
      { ContainerSpec :=
          { Image := "app:1"
            Env := some ["PORT=8080"]
            Labels := none }
        ForceUpdate := some 2 }
    Mode := some { Replicated := some { Replicas := some 3 } } }

/-- Cutting at the first occurrence of a character is idempotent: the
result contains no further occurrence. -/
theorem takeUntilChar_idem (c : Char) : ∀ l : List Char,
    takeUntilChar c (takeUntilChar c l) = takeUntilChar c l
  | [] => rfl
  | x :: xs => by
    by_cases h : x = c
    · simp [takeUntilChar, h]
    · simp [takeUntilChar, h, takeUntilChar_idem c xs]

/-- Stripping the image digest suffix is idempotent. -/
theorem stripDigest_idem (s : String) : stripDigest (stripDigest s) = stripDigest s := by
  unfold stripDigest
  exact congrArg String.mk (takeUntilChar_idem '@' s.data)

/-- Claim C9: merging the empty options object succeeds and returns the
input spec unchanged: no field of the spec is touched. -/
theorem merge_empty_options_identity (spec : ServiceSpec) :
    adjustSpec spec [] = Except.ok spec := rfl

/-- Claim C10: merging an options object whose replicas field is 0 leaves
the whole spec, and so its replica count, unchanged, because 0 is falsy
and the replicas branch is skipped; scale with replica count 0 builds
exactly these options, so it cannot set the replica count to zero. -/
theorem scale_zero_leaves_replicas (spec : ServiceSpec) :
    adjustSpec spec (scaleOptions 0) = Except.ok spec := rfl

/-- Claim C8: applying the force option twice increments the force-update
counter by 2 in total, and the second digest stripping leaves the already
stripped image unchanged. -/
theorem force_twice_increments_by_two (spec s1 s2 : ServiceSpec)
    (h1 : adjustSpec spec forceOptions = Except.ok s1)
    (h2 : adjustSpec s1 forceOptions = Except.ok s2) :
    s2.TaskTemplate.ForceUpdate = some (spec.TaskTemplate.ForceUpdate.getD 0 + 2) ∧
    s2.TaskTemplate.ContainerSpec.Image = s1.TaskTemplate.ContainerSpec.Image := by
  have e1 : adjustSpec spec forceOptions = Except.ok
      { spec with TaskTemplate := { spec.TaskTemplate with
          ContainerSpec := { spec.TaskTemplate.ContainerSpec with
            Image := stripDigest spec.TaskTemplate.ContainerSpec.Image },
          ForceUpdate := some (spec.TaskTemplate.ForceUpdate.getD 0 + 1) } } := rfl
  rw [e1] at h1
  injection h1 with h1
  subst h1
  have e2 : adjustSpec
      { spec with TaskTemplate := { spec.TaskTemplate with
          ContainerSpec := { spec.TaskTemplate.ContainerSpec with
            Image := stripDigest spec.TaskTemplate.ContainerSpec.Image },
          ForceUpdate := some (spec.TaskTemplate.ForceUpdate.getD 0 + 1) } }
      forceOptions = Except.ok
      { spec with TaskTemplate := { spec.TaskTemplate with
          ContainerSpec := { spec.TaskTemplate.ContainerSpec with
            Image := stripDigest (stripDigest spec.TaskTemplate.ContainerSpec.Image) },
          ForceUpdate := some (spec.TaskTemplate.ForceUpdate.getD 0 + 1 + 1) } } := rfl
  rw [e2] at h2
  injection h2 with h2
  subst h2
  exact ⟨rfl, stripDigest_idem spec.TaskTemplate.ContainerSpec.Image⟩

/-- Claim C8 witness: the force option applied twice to the concrete test
fixture. -/
theorem force_twice_increments_by_two_witness :
    tSpec2.TaskTemplate.ForceUpdate = some (testSpec.TaskTemplate.ForceUpdate.getD 0 + 2) ∧
    tSpec2.TaskTemplate.ContainerSpec.Image = tSpec1.TaskTemplate.ContainerSpec.Image :=
  force_twice_increments_by_two testSpec tSpec1 tSpec2 rfl rfl

/-- Scanning a task list whose identifiers all lie in the baseline skips
every task: nothing is found, no flag changes, no event is emitted. -/
theorem scanTasks_all_existing (existing : List String) :
    ∀ (ts : List Task) (found tr : Bool) (evs : List DebugEvent),
      ts.all (fun t => existing.contains t.id) = true →
      scanTasks existing found tr evs ts = ScanOutcome.ok found tr evs := by
  intro ts
  induction ts with
  | nil => intro found tr evs _; rfl
  | cons t rest ih =>
    intro found tr evs h
    rw [List.all_cons, Bool.and_eq_true] at h
    simp only [scanTasks]
    rw [if_pos h.1]
    exact ih found tr evs h.2

/-- Claim C5: a poll cycle in which every fetched task is in the baseline
(the new-task set is empty) ends the monitoring invocation immediately
with the benign no-new-tasks return and a single diagnostic observation,
whatever the session state, poll budget and remaining snapshots are: the
poll counter is never advanced and no later snapshot is consulted. -/
theorem empty_new_task_set_ends_monitoring (cfg : MonitorConfig) (existing : List String)
    (tr : Bool) (times : Nat) (monitoring : Bool) (mc : Nat)
    (ts : List Task) (rest : List (List Task))
    (h : ts.all (fun t => existing.contains t.id) = true) :
    checkTasks cfg existing tr times monitoring mc (ts :: rest) =
      (MonitorResult.noNewTasks, [DebugEvent.noTasksFound]) := by
  simp [checkTasks, scanTasks_all_existing existing ts false tr [] h]

/-- Claim C5 witness: a concrete cycle whose only task is the baseline
task ends monitoring at once. -/
theorem empty_new_task_set_ends_monitoring_witness :
    ([t1run].all (fun t => (["t1"].contains t.id)) = true) ∧
    checkTasks defaultConfig ["t1"] false 0 false 0 [[t1run]] =
      (MonitorResult.noNewTasks, [DebugEvent.noTasksFound]) :=
  ⟨by decide, empty_new_task_set_ends_monitoring defaultConfig ["t1"] false 0 false 0
    [t1run] [] (by decide)⟩

/-- Scanning a task list containing a new failed or rejected task throws:
the scan returns the failure report of the first such task. -/
theorem scanTasks_any_failing (existing : List String) :
    ∀ (ts : List Task) (found tr : Bool) (evs : List DebugEvent),
      ts.any (isNewFailing existing) = true →
      ∃ (f : TaskFailure) (evs' : List DebugEvent),
        scanTasks existing found tr evs ts = ScanOutcome.failure f evs' ∧
        ∃ t ∈ ts, isNewFailing existing t = true ∧
          f.id = t.id ∧ f.state = t.state ∧ f.err = t.err := by
  intro ts
  induction ts with
  | nil => intro found tr evs h; simp at h
  | cons t rest ih =>
    intro found tr evs h
    rw [List.any_cons, Bool.or_eq_true] at h
    by_cases hc : existing.contains t.id = true
    · have hrest : rest.any (isNewFailing existing) = true := by
        rcases h with h | h
        · exfalso
          simp only [isNewFailing, hc, Bool.not_true, Bool.false_and] at h
          exact Bool.noConfusion h
        · exact h
      obtain ⟨f, evs', hs, t', ht', hf⟩ := ih found tr evs hrest
      refine ⟨f, evs', ?_, t', List.mem_cons_of_mem t ht', hf⟩
      simp only [scanTasks]
      rw [if_pos hc]
      exact hs
    · have hcf : existing.contains t.id = false := by simpa using hc
      by_cases hfr : t.state = TaskState.failed ∨ t.state = TaskState.rejected
      · refine ⟨⟨t.id, t.state, t.err⟩, evs ++ [DebugEvent.checkTask t.id t.state], ?_,
          t, List.mem_cons_self t rest, ?_, rfl, rfl, rfl⟩
        · simp only [scanTasks]
          rw [if_neg hc, if_pos hfr]
        · simp only [isNewFailing]
          rw [hcf]
          rcases hfr with hfr | hfr <;> rw [hfr] <;> rfl
      · have hrest : rest.any (isNewFailing existing) = true := by
          rcases h with h | h
          · exfalso
            simp only [isNewFailing, hcf, Bool.not_false, Bool.true_and,
              Bool.or_eq_true, beq_iff_eq] at h
            exact hfr h
          · exact h
        by_cases hrun : t.state = TaskState.running
        · obtain ⟨f, evs', hs, t', ht', hf⟩ := ih true true
            (if tr then evs ++ [DebugEvent.checkTask t.id t.state]
             else (evs ++ [DebugEvent.checkTask t.id t.state]) ++ [DebugEvent.taskRunningFirst])
            hrest
          refine ⟨f, evs', ?_, t', List.mem_cons_of_mem t ht', hf⟩
          simp only [scanTasks]
          rw [if_neg hc, if_neg hfr, if_pos hrun]
          exact hs
        · obtain ⟨f, evs', hs, t', ht', hf⟩ := ih true tr
            (evs ++ [DebugEvent.checkTask t.id t.state]) hrest
          refine ⟨f, evs', ?_, t', List.mem_cons_of_mem t ht', hf⟩
          simp only [scanTasks]
          rw [if_neg hc, if_neg hfr, if_neg hrun]
          exact hs

/-- Claim C6: a poll cycle in which some new task reports failed or
rejected terminates monitoring immediately on that cycle with a failure
verdict carrying that task's identifier, state and error detail, for
every remaining snapshot list: no further poll happens and nothing is
retried. -/
theorem failed_new_task_aborts_monitoring (cfg : MonitorConfig) (existing : List String)
    (tr : Bool) (times : Nat) (monitoring : Bool) (mc : Nat) (ts : List Task)
    (h : ts.any (isNewFailing existing) = true) :
    ∃ f : TaskFailure,
      (∀ rest : List (List Task),
        (checkTasks cfg existing tr times monitoring mc (ts :: rest)).1 =
          MonitorResult.taskFailure f) ∧
      ∃ t ∈ ts, isNewFailing existing t = true ∧
        f.id = t.id ∧ f.state = t.state ∧ f.err = t.err := by
  obtain ⟨f, evs', hs, hw⟩ := scanTasks_any_failing existing ts false tr [] h
  exact ⟨f, fun rest => by simp [checkTasks, hs], hw⟩

/-- Claim C6 witness: a rejected fresh task aborts a concrete monitoring
run at once with its report. -/
theorem failed_new_task_aborts_monitoring_witness :
    ([t2rej].any (isNewFailing []) = true) ∧
    ∃ f : TaskFailure,
      (∀ rest : List (List Task),
        (checkTasks defaultConfig [] false 0 false 0 ([t2rej] :: rest)).1 =
          MonitorResult.taskFailure f) ∧
      ∃ t ∈ [t2rej], isNewFailing [] t = true ∧
        f.id = t.id ∧ f.state = t.state ∧ f.err = t.err :=
  ⟨by decide, failed_new_task_aborts_monitoring defaultConfig [] false 0 false 0
    [t2rej] (by decide)⟩

/-- Claim C7: with extended monitoring off and baseline task t1, a run
whose first poll shows the new task t2 pending and whose second poll shows
t2 running converges after the second cycle, whatever snapshots would come
later: the third and later snapshots are never consulted. -/
theorem convergence_scenario_two_cycles (rest : List (List Task)) :
    (waitUntilRunning defaultConfig (MonitorArg.flag false) [t1run]
      ([t1run, t2pend] :: [t1run, t2run] :: rest)).1 = MonitorResult.converged := rfl

/-- Claim C1 (code bug): adjust passes the pre-fetched task identifiers as
the second argument of waitUntilRunning, but the monitor only uses that
argument's truthiness and always recomputes the baseline from a fresh
fetch.  With supplied baseline t1 and a fresh fetch seeing t1 still
pending, t1 is treated as a new task: its later rejection aborts the run
as a failure, while the specified monitor (using the supplied set) would
ignore t1 and end benignly with no new tasks. -/
theorem adjust_supplied_baseline_ignored :
    (waitUntilRunning defaultConfig (MonitorArg.taskIds ["t1"])
        [⟨"t1", TaskState.pending, none⟩]
        [[⟨"t1", TaskState.rejected, some "boom"⟩]]).1 =
      MonitorResult.taskFailure ⟨"t1", TaskState.rejected, some "boom"⟩ ∧
    (waitUntilRunningSpec defaultConfig (MonitorArg.taskIds ["t1"])
        [⟨"t1", TaskState.pending, none⟩]
        [[⟨"t1", TaskState.rejected, some "boom"⟩]]).1 =
      MonitorResult.noNewTasks := ⟨rfl, rfl⟩

/-- One poll cycle over a running new task while extended monitoring is
off returns converged at once, from any prior taskRunning flag. -/
theorem checkTasks_step_running_done (W M : Nat) (tr : Bool) (times mc : Nat)
    (rest : List (List Task)) :
    (checkTasks ⟨W, M⟩ [] tr times false mc ([t2run] :: rest)).1 = MonitorResult.converged := by
  cases tr
  · simp [checkTasks, show scanTasks [] false false [] [t2run] =
      ScanOutcome.ok true true
        [DebugEvent.checkTask "t2" TaskState.running, DebugEvent.taskRunningFirst] from rfl]
  · simp [checkTasks, show scanTasks [] false true [] [t2run] =
      ScanOutcome.ok true true [DebugEvent.checkTask "t2" TaskState.running] from rfl]

/-- One poll cycle over a running new task while extended monitoring is on
advances the poll and post-convergence counters and clears the monitoring
flag exactly when the threshold is reached, from any prior taskRunning
flag. -/
theorem checkTasks_step_running_keep (W M : Nat) (tr : Bool) (times mc : Nat)
    (rest : List (List Task)) :
    (checkTasks ⟨W, M⟩ [] tr times true mc ([t2run] :: rest)).1 =
      (checkTasks ⟨W, M⟩ [] true (times + 1)
        (if M ≤ mc + 1 then false else true) (mc + 1) rest).1 := by
  cases tr
  · simp [checkTasks, show scanTasks [] false false [] [t2run] =
      ScanOutcome.ok true true
        [DebugEvent.checkTask "t2" TaskState.running, DebugEvent.taskRunningFirst] from rfl]
  · simp [checkTasks, show scanTasks [] false true [] [t2run] =
      ScanOutcome.ok true true [DebugEvent.checkTask "t2" TaskState.running] from rfl]

/-- A steady run of polls over the running task, started inside extended
monitoring with j cycles left to the threshold, converges when given
exactly j plus one further snapshots. -/
theorem checkTasks_running_converges (W M : Nat) :
    ∀ (j : Nat), 1 ≤ j → ∀ (mc times : Nat), mc + j = M →
      (checkTasks ⟨W, M⟩ [] true times true mc (List.replicate (j + 1) [t2run])).1 =
        MonitorResult.converged := by
  intro j
  induction j with
  | zero => intro h; exact absurd h (by omega)
  | succ j ih =>
    intro _ mc times hM
    rw [List.replicate_succ, checkTasks_step_running_keep]
    rcases Nat.eq_zero_or_pos j with rfl | hj
    · rw [if_pos (by omega), List.replicate_succ]
      exact checkTasks_step_running_done W M true (times + 1) (mc + 1) _
    · rw [if_neg (by omega)]
      exact ih hj (mc + 1) (times + 1) (by omega)

/-- The same steady run, given only j snapshots, runs out of snapshots
instead of converging: the cycle that reaches the threshold still
recurses. -/
theorem checkTasks_running_out (W M : Nat) :
    ∀ (j mc times : Nat), mc + j = M →
      (checkTasks ⟨W, M⟩ [] true times true mc (List.replicate j [t2run])).1 =
        MonitorResult.outOfPolls := by
  intro j
  induction j with
  | zero => intro mc times _; rfl
  | succ j ih =>
    intro mc times hM
    rw [List.replicate_succ, checkTasks_step_running_keep]
    rcases Nat.eq_zero_or_pos j with rfl | hj
    · rw [if_pos (by omega)]
      rfl
    · rw [if_neg (by omega)]
      exact ih (mc + 1) (times + 1) (by omega)

/-- Claim C2 counterexample: with extra-cycles threshold 1 and a new task
observed running on the first poll, the post-convergence counter reaches
the threshold on cycle 1, yet the monitor does not stop there: a run
given only that one cycle is still unfinished, and convergence is
reported only on the second poll cycle. -/
theorem extended_monitoring_extra_poll_counterexample :
    (waitUntilRunning defaultConfig (MonitorArg.flag true) [] [[t2run]]).1 =
      MonitorResult.outOfPolls ∧
    (waitUntilRunning defaultConfig (MonitorArg.flag true) [] [[t2run], [t2run]]).1 =
      MonitorResult.converged := ⟨rfl, rfl⟩

/-- Claim C2 (amended): once the post-convergence counter reaches the
extra-cycles threshold the monitor only clears the monitoring flag and
polls once more, reporting converged on the following cycle: with
threshold M and a continuously running new task it consumes exactly M
plus one poll cycles, and M cycles do not suffice. -/
theorem extended_monitoring_converges_after_threshold_cycle (W M : Nat) (h : 1 ≤ M) :
    (waitUntilRunning ⟨W, M⟩ (MonitorArg.flag true) [] (List.replicate (M + 1) [t2run])).1 =
      MonitorResult.converged ∧
    (waitUntilRunning ⟨W, M⟩ (MonitorArg.flag true) [] (List.replicate M [t2run])).1 =
      MonitorResult.outOfPolls := by
  obtain ⟨M', rfl⟩ : ∃ M', M = M' + 1 := ⟨M - 1, by omega⟩
  constructor
  · show (checkTasks ⟨W, M' + 1⟩ [] false 0 true 0 (List.replicate (M' + 1 + 1) [t2run])).1 = _
    rw [List.replicate_succ, checkTasks_step_running_keep]
    rcases Nat.eq_zero_or_pos M' with rfl | hM'
    · rw [if_pos (by omega), List.replicate_succ]
      exact checkTasks_step_running_done W 1 true 1 1 _
    · rw [if_neg (by omega)]
      exact checkTasks_running_converges W (M' + 1) M' hM' 1 1 (by omega)
  · show (checkTasks ⟨W, M' + 1⟩ [] false 0 true 0 (List.replicate (M' + 1) [t2run])).1 = _
    rw [List.replicate_succ, checkTasks_step_running_keep]
    rcases Nat.eq_zero_or_pos M' with rfl | hM'
    · rw [if_pos (by omega)]
      rfl
    · rw [if_neg (by omega)]
      exact checkTasks_running_out W (M' + 1) M' 1 1 (by omega)

/-- Claim C2 witness: concrete instance at threshold 1 with the default
poll budget. -/
theorem extended_monitoring_converges_after_threshold_cycle_witness :
    ((1 : Nat) ≤ 1) ∧
    ((waitUntilRunning ⟨30, 1⟩ (MonitorArg.flag true) [] (List.replicate (1 + 1) [t2run])).1 =
        MonitorResult.converged ∧
      (waitUntilRunning ⟨30, 1⟩ (MonitorArg.flag true) [] (List.replicate 1 [t2run])).1 =
        MonitorResult.outOfPolls) :=
  ⟨by decide, extended_monitoring_converges_after_threshold_cycle 30 1 (by decide)⟩

/-- One poll cycle over a pending new task times out exactly when the
advanced poll counter exceeds the maximum. -/
theorem checkTasks_step_pending_timeout (W M times : Nat) (monitoring : Bool) (mc : Nat)
    (rest : List (List Task)) (h : W < times + 1) :
    (checkTasks ⟨W, M⟩ [] false times monitoring mc ([t2pend] :: rest)).1 =
      MonitorResult.timedOut := by
  simp [checkTasks, show scanTasks [] false false [] [t2pend] =
    ScanOutcome.ok true false [DebugEvent.checkTask "t2" TaskState.pending] from rfl, h]

/-- One poll cycle over a pending new task below the maximum advances the
poll counter and keeps polling. -/
theorem checkTasks_step_pending_go (W M times : Nat) (monitoring : Bool) (mc : Nat)
    (rest : List (List Task)) (h : ¬ W < times + 1) :
    (checkTasks ⟨W, M⟩ [] false times monitoring mc ([t2pend] :: rest)).1 =
      (checkTasks ⟨W, M⟩ [] false (times + 1) monitoring mc rest).1 := by
  simp [checkTasks, show scanTasks [] false false [] [t2pend] =
    ScanOutcome.ok true false [DebugEvent.checkTask "t2" TaskState.pending] from rfl, h]

/-- A run of polls that each find the new task still pending times out
exactly when some cycle pushes the poll counter beyond the maximum, and
otherwise runs out of snapshots still polling. -/
theorem checkTasks_pending_run (W M : Nat) :
    ∀ (n times : Nat) (monitoring : Bool) (mc : Nat),
      (checkTasks ⟨W, M⟩ [] false times monitoring mc (List.replicate n [t2pend])).1 =
        (if 1 ≤ n ∧ W < times + n then MonitorResult.timedOut else MonitorResult.outOfPolls) := by
  intro n
  induction n with
  | zero =>
    intro times monitoring mc
    rw [if_neg (by omega)]
    rfl
  | succ n ih =>
    intro times monitoring mc
    rw [List.replicate_succ]
    by_cases h : W < times + 1
    · rw [checkTasks_step_pending_timeout W M times monitoring mc _ h, if_pos (by omega)]
    · rw [checkTasks_step_pending_go W M times monitoring mc _ h, ih (times + 1) monitoring mc]
      by_cases h2 : 1 ≤ n ∧ W < times + 1 + n
      · rw [if_pos h2, if_pos (by omega)]
      · rw [if_neg h2, if_neg (by omega)]

/-- Claim C4 counterexample: with a maximum poll count of 3 and the new
task pending on every cycle, three poll cycles do not yet produce the
timeout verdict (the monitor is still polling); the timeout is reported
only on the 4th cycle. -/
theorem timeout_budget_counterexample :
    (waitUntilRunning ⟨3, 1⟩ (MonitorArg.flag false) [] (List.replicate 3 [t2pend])).1 =
      MonitorResult.outOfPolls ∧
    (waitUntilRunning ⟨3, 1⟩ (MonitorArg.flag false) [] (List.replicate 4 [t2pend])).1 =
      MonitorResult.timedOut := ⟨rfl, rfl⟩

/-- Claim C4 (amended): with maximum poll count W and a new task that
stays pending while no task runs, monitoring times out on the cycle whose
poll counter first exceeds W, which is cycle W plus one: W cycles are not
enough and W plus one cycles produce the timeout verdict. -/
theorem timeout_after_budget_exceeded (W M : Nat) :
    (waitUntilRunning ⟨W, M⟩ (MonitorArg.flag false) [] (List.replicate (W + 1) [t2pend])).1 =
      MonitorResult.timedOut ∧
    (waitUntilRunning ⟨W, M⟩ (MonitorArg.flag false) [] (List.replicate W [t2pend])).1 =
      MonitorResult.outOfPolls := by
  constructor
  · show (checkTasks ⟨W, M⟩ [] false 0 false 0 (List.replicate (W + 1) [t2pend])).1 = _
    rw [checkTasks_pending_run W M (W + 1) 0 false 0, if_pos (by omega)]
  · show (checkTasks ⟨W, M⟩ [] false 0 false 0 (List.replicate W [t2pend])).1 = _
    rw [checkTasks_pending_run W M W 0 false 0, if_neg (by omega)]

end DockerServiceUpdate
